import Mathlib

/-!
Verification of the realtime game engine of the mygame repository
(src/internal/endpoint/game.go).  The Go event loop runGame is shallow-embedded
as two pure step functions, handleClientEvent (one ClientEvent drawn from the
event channel) and handleTick (one timer tick), acting on an explicit GameState.

Modelling conventions:
  * Go runtime panics (nil-pointer dereference, index out of range) are made
    explicit: a StepResult carries panicked = some kind, together with the
    state mutations and channel sends that happened before the panicking
    statement (channel sends are observable even if the goroutine then dies).
  * Go maps keyed by token or queue id are association lists in insertion
    order; map iteration (range) is modelled as iteration in insertion order.
    Go leaves the range order unspecified, so theorems that depend on an
    iteration order either quantify over the orders involved or use
    order-independent facts.
  * hub.clients (map token -> *Client) is modelled as a token -> Role
    association list; the players map (keyed by *Client pointers obtained from
    hub.clients) is keyed by the client token, since the hub holds one client
    pointer per token.
  * wall-clock time is a single integer parameter now (unix seconds, UTC);
    every time.Now() call inside one handler run collapses to it.
  * jwt.ParseJWT lives outside src/internal/endpoint; it is abstracted as a
    parameter parse : String -> Except String Token, covering every possible
    verifier outcome.
-/

set_option linter.all false

namespace MyGame

/-- Client roles.  Modelled from the spec: the Role type and its constants
Leader, User, Spectator are declared in the hub/client file which is not part
of src/; game.go only references Leader and User. -/
inductive Role
  | Leader
  | User
  | Spectator
deriving DecidableEq, Repr

/-- Client event types (game.go:16-25).  In Go EventType is a string; the
constructor UnknownEvent stands for every string other than the eight declared
constants (the switch in runGame has no case for those). -/
inductive EventType
  | StartGame
  | Join
  | Disconnect
  | GetQuest
  | ChooseQuest
  | GiveAnswer
  | DeclineAnswer
  | AcceptAnswer
  | UnknownEvent
deriving DecidableEq, Repr

/-- roleByEvent (game.go:27-36); a missing key in the Go map yields the empty
slice, which is what UnknownEvent returns. -/
def roleByEvent : EventType → List Role
  | .StartGame => [.Leader]
  | .Join => []
  | .Disconnect => []
  | .GetQuest => [.User]
  | .GiveAnswer => [.User]
  | .DeclineAnswer => [.Leader]
  | .AcceptAnswer => [.Leader]
  | .ChooseQuest => [.User]
  | .UnknownEvent => []

/-- Server event types (game.go:40-54). -/
inductive ServerEventType
  | GreetingsServer
  | ReadingRoundServer
  | ReadingThemesServer
  | WallServer
  | GetQuestServer
  | JoinServer
  | DisconnectServer
  | ChooseQuestServer
  | TakenQuestServer
  | ScoreChangedServer
  | AnswerAcceptedServer
  | AnswerDeclinedServer
  | FinalServer
deriving DecidableEq, Repr

/-- Steps of the game state machine (game.go:69-79).  The Go iota constant is
spelled Grettings in the source. -/
inductive Step
  | WaitingStart
  | Grettings
  | ReadingRound
  | ReadingThemes
  | ChooseQuestion
  | Getting
  | Answering
  | Pause
  | Final
deriving DecidableEq, Repr

/-- Object types (game.go:181-190). -/
inductive ObjectType
  | Text
  | Image
  | Audio
  | Video
  | Auction
  | Answer
  | FinalRound
  | Marker
deriving DecidableEq, Repr

/-- Object (game.go:203-207). -/
structure Object where
  id : Int
  type : ObjectType
  src : String
deriving DecidableEq, Repr

/-- Question (game.go:196-201).  price is mutated in place to -1 by the
Getting tick. -/
structure Question where
  id : Int
  price : Int
  scene : List Object
  answer : List Object
deriving DecidableEq, Repr

/-- Theme (game.go:173-177). -/
structure Theme where
  id : Int
  name : String
  quests : List Question
deriving DecidableEq, Repr

/-- Round (game.go:167-171). -/
structure Round where
  id : Int
  name : String
  themes : List Theme
deriving DecidableEq, Repr

/-- Parsed JWT claims as returned by jwt.ParseJWT.  Modelled from the spec:
the token verifier returns (userId, login, expiresAt); the jwt package is not
part of src/. -/
structure Token where
  id : Int
  login : String
  expiresAt : Int
deriving DecidableEq, Repr

/-- Payload of a choose_quest client event (game.go:62-65). -/
structure ChooseQuestClientEvent where
  themeID : Int
  questionID : Int
deriving DecidableEq, Repr

/-- ClientEvent (game.go:56-60).  data is the json.RawMessage payload: only
choose_quest decodes it, so it is modelled as an optional decoded payload,
none standing for a payload json.Unmarshal rejects. -/
structure ClientEvent where
  type : EventType
  token : String
  data : Option ChooseQuestClientEvent
deriving DecidableEq, Repr

/-- Data payloads of server events (the interface value in game.go:84),
one constructor per payload struct of game.go:87-135; noData is Go nil. -/
inductive EventData
  | greetings (name author date : String)
  | joinData (queueID : Int) (nickname : String)
  | disconnectData (queueID : Int)
  | readingRoundData (name : String)
  | readingThemesData (themeNames : List String)
  | wallData (themes : List Theme)
  | chooseQuestData (themeID questionID : Int)
  | takenQuestData (queueID : Int)
  | getQuestData (queueID : Int)
  | scoreChangedData (queueID score : Int)
  | finalData (winnerID : Int)
  | noData
deriving DecidableEq, Repr

/-- ServerEvent (game.go:81-85). -/
structure ServerEvent where
  type : ServerEventType
  exp : Int
  data : EventData
deriving DecidableEq, Repr

/-- The mutable fields of Game (game.go:137-160) together with the hub client
map the loop reads.  players holds (client token, score) in insertion order. -/
structure GameState where
  name : String
  author : String
  date : String
  rounds : List Round
  clients : List (String × Role)
  players : List (String × Int)
  playersQueueIDByToken : List (String × Int)
  playersTokenByQueueID : List (Int × String)
  currentStep : Step
  currentPlayerID : Int
  currentRound : Int
  currentTheme : Int
  currentQuestion : Int
deriving DecidableEq, Repr

/-- Go runtime panic kinds the loop can hit. -/
inductive GoPanic
  | nilDeref
  | indexOutOfRange
deriving DecidableEq, Repr

/-- What the loop body does after one select arm: continue looping, or the
explicit return in the token-error paths (game.go:228, 240). -/
inductive LoopCtl
  | continueLoop
  | returnLoop
deriving DecidableEq, Repr

/-- Result of one iteration of the runGame select loop: the state afterwards,
the broadcasts pushed to hub.broadcast in order, the in-band messages pushed
to individual client send queues, the clients pushed to hub.unregister,
whether hub.close was signalled, the loop control, the newDuration (seconds)
the timer would be re-armed with (0 = leave the timer alone), and the pending
panic if the statement list died mid-way. -/
structure StepResult where
  state : GameState
  broadcasts : List ServerEvent
  sends : List (String × String)
  unregisters : List String
  closed : Bool
  ctl : LoopCtl
  newDuration : Int
  panicked : Option GoPanic
deriving DecidableEq, Repr

/-- Result of a branch that touches nothing. -/
def noChange (g : GameState) : StepResult :=
  { state := g, broadcasts := [], sends := [], unregisters := [], closed := false,
    ctl := .continueLoop, newDuration := 0, panicked := none }

/-- Result of a statement that dereferences a nil pointer, keeping whatever
was already mutated and sent. -/
def nilPanicRes (g : GameState) (evs : List ServerEvent) (dur : Int) : StepResult :=
  { state := g, broadcasts := evs, sends := [], unregisters := [], closed := false,
    ctl := .continueLoop, newDuration := dur, panicked := some .nilDeref }

/-- Result of a statement that indexes a slice out of range. -/
def indexPanicRes (g : GameState) (evs : List ServerEvent) (dur : Int) : StepResult :=
  { state := g, broadcasts := evs, sends := [], unregisters := [], closed := false,
    ctl := .continueLoop, newDuration := dur, panicked := some .indexOutOfRange }

/-- Association-list lookup, first binding wins; models a Go map read that
hits (some) or misses (none, the zero value). -/
def lookupKey {κ ν : Type} [BEq κ] : List (κ × ν) → κ → Option ν
  | [], _ => none
  | p :: ps, k => if p.1 == k then some p.2 else lookupKey ps k

/-- Association-list write m[k] = v: overwrite in place if the key exists,
append otherwise (insertion order is kept). -/
def upsert {κ ν : Type} [BEq κ] (l : List (κ × ν)) (k : κ) (v : ν) : List (κ × ν) :=
  if l.any (fun p => p.1 == k) then
    l.map (fun p => if p.1 == k then (k, v) else p)
  else
    l ++ [(k, v)]

/-- In-place score mutation player.score += delta through the Player pointer. -/
def updateScore (players : List (String × Int)) (tok : String) (delta : Int) :
    List (String × Int) :=
  players.map (fun p => if p.1 == tok then (p.1, p.2 + delta) else p)

/-- Go slice indexing s[i] with an int index; none models the out-of-range
panic (also for negative i). -/
def listGetI {α : Type} (l : List α) (i : Int) : Option α :=
  if 0 ≤ i then l.get? i.toNat else none

/-- Replace the element at a position, identity when out of range. -/
def modifyAtNat {α : Type} : List α → Nat → (α → α) → List α
  | [], _, _ => []
  | x :: xs, 0, f => f x :: xs
  | x :: xs, n + 1, f => x :: modifyAtNat xs n f

/-- In-place mutation of the question at (round ri, theme ti, quest qi)
(0-based int indices), as done through the curQuest pointer. -/
def setQuestPrice (rounds : List Round) (ri ti qi newPrice : Int) : List Round :=
  if 0 ≤ ri ∧ 0 ≤ ti ∧ 0 ≤ qi then
    modifyAtNat rounds ri.toNat (fun r =>
      { r with themes := modifyAtNat r.themes ti.toNat (fun t =>
        { t with quests := modifyAtNat t.quests qi.toNat (fun q =>
          { q with price := newPrice }) }) })
  else rounds

/-- The curQuest fetch
Rounds[currentRound-1].Themes[currentTheme-1].Quests[currentQuestion-1]
(game.go:392, 445, 594, 638); none models the index-out-of-range panic. -/
def questAt (g : GameState) : Option Question := do
  let round ← listGetI g.rounds (g.currentRound - 1)
  let theme ← listGetI round.themes (g.currentTheme - 1)
  listGetI theme.quests (g.currentQuestion - 1)

/-- The found flag of the accept/decline/Getting/Answering branches
(game.go:357-365 etc.): some question of the current round has price >= 0 and
an id other than currentQuestion. -/
def foundAvailable (round : Round) (currentQuestion : Int) : Bool :=
  round.themes.any (fun t => t.quests.any (fun q =>
    decide (0 ≤ q.price) && q.id != currentQuestion))

/-- The winner fold of the Final branches (game.go:376-383 etc.): winnerID and
maxScore start at the zero value 0; a player replaces the pair only when its
score strictly exceeds maxScore.  Iteration is in insertion order (Go range
over the players map leaves the order unspecified). -/
def computeWinner (players : List (String × Int))
    (queueIDByToken : List (String × Int)) : Int :=
  (players.foldl
    (fun acc p =>
      if p.2 > acc.2 then ((lookupKey queueIDByToken p.1).getD 0, p.2) else acc)
    (0, 0)).1

/-- The shared round-advance branch of accept_answer (game.go:366-390),
decline_answer (game.go:418-443), the Getting tick (game.go:568-592) and the
Answering tick (game.go:612-636).  Given the found flag, it returns the
mutated state, the newDuration (durStay when the round still has questions,
durAdvance when another round is entered, 300 s on Final) and the events
broadcast inside the branch (finalEvs, which each caller builds; empty
outside the Final arm).  The Final arm is guarded by
NOT(len(Rounds) > currentRound-1). -/
def exhaustBranch (g : GameState) (found : Bool) (durStay durAdvance : Int)
    (finalEvs : List ServerEvent) : GameState × Int × List ServerEvent :=
  if !found then
    if (g.rounds.length : Int) > g.currentRound - 1 then
      ({ g with currentRound := g.currentRound + 1,
                currentStep := .ChooseQuestion }, durAdvance, [])
    else
      ({ g with currentStep := .Final }, 300, finalEvs)
  else
    ({ g with currentStep := .ChooseQuestion }, durStay, [])

/-- The auto-pick loop of the ChooseQuestion tick (game.go:536-545): themeID
and quest are overwritten by every question with price >= 0, without a break,
so the pair kept is the last available one; none models the nil quest. -/
def pickLastAvailable (themes : List Theme) : Option (Int × Question) :=
  themes.foldl
    (fun acc t =>
      t.quests.foldl
        (fun acc2 q => if decide (0 ≤ q.price) then some (t.id, q) else acc2)
        acc)
    none

/-- start_game case (game.go:262-279). -/
def startGameCase (now : Int) (g : GameState) (e : ClientEvent) : StepResult :=
  if g.players.length == 0 then
    match lookupKey g.clients e.token with
    | none => nilPanicRes g [] 0
    | some _ =>
      { noChange g with sends := [(e.token, "cannot start game: no players")] }
  else
    { state := { g with currentStep := .Grettings },
      broadcasts := [{ type := .GreetingsServer, exp := now + 10,
                       data := .greetings g.name g.author g.date }],
      sends := [], unregisters := [], closed := false,
      ctl := .continueLoop, newDuration := 10, panicked := none }

/-- join case (game.go:280-305).  A Leader only triggers the broadcast; a
User gets a Player with score 0 and the next queue id
len(playersQueueIDByToken)+1. -/
def joinCase (g : GameState) (e : ClientEvent) (token : Token) : StepResult :=
  match lookupKey g.clients e.token with
  | none => nilPanicRes g [] 0
  | some role =>
    if role == .Leader then
      { noChange g with
          broadcasts := [{ type := .JoinServer, exp := 0,
                           data := .joinData 0 token.login }] }
    else
      let queueID : Int := g.playersQueueIDByToken.length + 1
      { state := { g with
          players := upsert g.players e.token 0,
          playersQueueIDByToken := upsert g.playersQueueIDByToken e.token queueID,
          playersTokenByQueueID := upsert g.playersTokenByQueueID queueID e.token },
        broadcasts := [{ type := .JoinServer, exp := 0,
                         data := .joinData queueID token.login }],
        sends := [], unregisters := [], closed := false,
        ctl := .continueLoop, newDuration := 0, panicked := none }

/-- disconnect case (game.go:306-317): deletes the player whose client token
matches and broadcasts the (possibly zero) queue id. -/
def disconnectCase (g : GameState) (e : ClientEvent) : StepResult :=
  { state := { g with players := g.players.filter (fun p => !(p.1 == e.token)) },
    broadcasts := [{ type := .DisconnectServer, exp := 0,
                     data := .disconnectData
                       ((lookupKey g.playersQueueIDByToken e.token).getD 0) }],
    sends := [], unregisters := [], closed := false,
    ctl := .continueLoop, newDuration := 0, panicked := none }

/-- choose_quest case (game.go:318-340): a payload json.Unmarshal rejects is
logged and skipped; otherwise currentTheme/currentQuestion come straight from
the payload and the step becomes Getting for 10 s. -/
def chooseQuestCase (now : Int) (g : GameState) (e : ClientEvent) : StepResult :=
  match e.data with
  | none => noChange g
  | some payload =>
    { state := { g with currentTheme := payload.themeID,
                        currentQuestion := payload.questionID,
                        currentStep := .Getting },
      broadcasts := [{ type := .ChooseQuestServer, exp := now + 10,
                       data := .chooseQuestData payload.themeID payload.questionID }],
      sends := [], unregisters := [], closed := false,
      ctl := .continueLoop, newDuration := 10, panicked := none }

/-- get_quest case (game.go:341-356): only in step Getting; reads
players[clients[event.Token]] (nil dereference when either map misses) and,
when the stored client has role User, moves to Answering for 20 s with
currentPlayerID = queueID of the sender. -/
def getQuestCase (now : Int) (g : GameState) (e : ClientEvent) : StepResult :=
  if g.currentStep == Step.Getting then
    match lookupKey g.clients e.token, lookupKey g.players e.token with
    | some role, some _ =>
      if role == .User then
        let qid := (lookupKey g.playersQueueIDByToken e.token).getD 0
        { state := { g with currentStep := .Answering, currentPlayerID := qid },
          broadcasts := [{ type := .TakenQuestServer, exp := now + 20,
                           data := .takenQuestData qid }],
          sends := [], unregisters := [], closed := false,
          ctl := .continueLoop, newDuration := 20, panicked := none }
      else noChange g
    | _, _ => nilPanicRes g [] 0
  else noChange g

/-- Player rotation after scoring (game.go:395-399, 448-452, 641-645). -/
def rotatePlayer (g : GameState) : GameState :=
  { g with currentPlayerID :=
      if (g.players.length : Int) > g.currentPlayerID then g.currentPlayerID + 1
      else 1 }

/-- accept_answer case (game.go:357-407).  The exhaustion check indexes
Rounds[currentRound-1] first; the Final branch requires
len(Rounds) <= currentRound-1 and is therefore dead code whenever the
indexing succeeded.  Scoring credits the player designated by
playersTokenByQueueID[currentPlayerID]; the score_changed payload reads the
score of the event sender (the Leader), a nil dereference when the sender has
no Player. -/
def acceptAnswerCase (now : Int) (g : GameState) (e : ClientEvent) : StepResult :=
  match listGetI g.rounds (g.currentRound - 1) with
  | none => indexPanicRes g [] 0
  | some round =>
    let branch := exhaustBranch g (foundAvailable round g.currentQuestion) 30 30
      [{ type := .FinalServer, exp := now + 300,
         data := .finalData (computeWinner g.players g.playersQueueIDByToken) }]
    let g1 := branch.1
    let dur := branch.2.1
    let evs1 := branch.2.2
    match questAt g1 with
    | none => indexPanicRes g1 evs1 dur
    | some curQuest =>
      let tokCur := (lookupKey g1.playersTokenByQueueID g1.currentPlayerID).getD ""
      match lookupKey g1.clients tokCur with
      | none => nilPanicRes g1 evs1 dur
      | some _ =>
        match lookupKey g1.players tokCur with
        | none => nilPanicRes g1 evs1 dur
        | some _ =>
          let g2 := { g1 with players := updateScore g1.players tokCur curQuest.price }
          let g3 := rotatePlayer g2
          match lookupKey g3.clients e.token with
          | none => nilPanicRes g3 evs1 dur
          | some _ =>
            match lookupKey g3.players e.token with
            | none => nilPanicRes g3 evs1 dur
            | some senderScore =>
              { state := g3,
                broadcasts := evs1 ++
                  [{ type := .AnswerAcceptedServer, exp := now + dur, data := .noData },
                   { type := .ScoreChangedServer, exp := 0,
                     data := .scoreChangedData g3.currentPlayerID senderScore }],
                sends := [], unregisters := [], closed := false,
                ctl := .continueLoop, newDuration := dur, panicked := none }

/-- decline_answer case (game.go:409-459).  Same exhaustion logic as accept
(30 s on round advance, 10 s otherwise; the Final branch broadcasts
answer_declined with the deadline and final_server with exp 0).  The debit
goes to players[clients[event.Token]] - the event sender, not the current
player - and panics when the sender has no Player entry. -/
def declineAnswerCase (now : Int) (g : GameState) (e : ClientEvent) : StepResult :=
  match listGetI g.rounds (g.currentRound - 1) with
  | none => indexPanicRes g [] 0
  | some round =>
    let branch := exhaustBranch g (foundAvailable round g.currentQuestion) 10 30
      [{ type := .AnswerDeclinedServer, exp := now + 300, data := .noData },
       { type := .FinalServer, exp := 0,
         data := .finalData (computeWinner g.players g.playersQueueIDByToken) }]
    let g1 := branch.1
    let dur := branch.2.1
    let evs1 := branch.2.2
    match questAt g1 with
    | none => indexPanicRes g1 evs1 dur
    | some curQuest =>
      match lookupKey g1.clients e.token with
      | none => nilPanicRes g1 evs1 dur
      | some _ =>
        match lookupKey g1.players e.token with
        | none => nilPanicRes g1 evs1 dur
        | some _ =>
          let g2 := { g1 with players := updateScore g1.players e.token (-curQuest.price) }
          let g3 := rotatePlayer g2
          match lookupKey g3.players e.token with
          | none => nilPanicRes g3 evs1 dur
          | some senderScore =>
            { state := g3,
              broadcasts := evs1 ++
                [{ type := .ScoreChangedServer, exp := now + dur,
                   data := .scoreChangedData g3.currentPlayerID senderScore }],
              sends := [], unregisters := [], closed := false,
              ctl := .continueLoop, newDuration := dur, panicked := none }

/-- Dispatch of the event switch (game.go:261-460); give_answer and unknown
event types have no case and fall through untouched. -/
def dispatchEvent (now : Int) (g : GameState) (e : ClientEvent) (token : Token) :
    StepResult :=
  match e.type with
  | .StartGame => startGameCase now g e
  | .Join => joinCase g e token
  | .Disconnect => disconnectCase g e
  | .ChooseQuest => chooseQuestCase now g e
  | .GetQuest => getQuestCase now g e
  | .AcceptAnswer => acceptAnswerCase now g e
  | .DeclineAnswer => declineAnswerCase now g e
  | .GiveAnswer => noChange g
  | .UnknownEvent => noChange g

/-- One pass of the ClientEvent select arm (game.go:217-465).  On a parse
error or an expired token the code looks the sender up and, only when the
lookup MISSED (the inverted ok flag), dereferences the nil client - a
panic - and otherwise falls through to the return statement that exits
runGame.  Then the role table is enforced, then the event switch runs. -/
def handleClientEvent (parse : String → Except String Token) (now : Int)
    (g : GameState) (e : ClientEvent) : StepResult :=
  match parse e.token with
  | .error _ =>
    match lookupKey g.clients e.token with
    | some _ => { noChange g with ctl := .returnLoop }
    | none => { nilPanicRes g [] 0 with ctl := .returnLoop }
  | .ok token =>
    if token.expiresAt < now then
      match lookupKey g.clients e.token with
      | some _ => { noChange g with ctl := .returnLoop }
      | none => { nilPanicRes g [] 0 with ctl := .returnLoop }
    else
      let accessedRoles := roleByEvent e.type
      if accessedRoles.isEmpty then
        dispatchEvent now g e token
      else
        match lookupKey g.clients e.token with
        | none => nilPanicRes g [] 0
        | some role =>
          if accessedRoles.contains role then
            dispatchEvent now g e token
          else
            { noChange g with sends := [(e.token, "permission denied")] }

/-- Grettings tick (game.go:482-502). -/
def grettingsTickCase (now : Int) (g : GameState) : StepResult :=
  let branch : GameState × Int × List ServerEvent :=
    if (g.rounds.length : Int) > g.currentRound then
      ({ g with currentStep := .ReadingRound, currentRound := g.currentRound + 1 },
       4, [])
    else
      ({ g with currentStep := .Final }, 300,
       [{ type := .FinalServer, exp := now + 300, data := .finalData 1 }])
  let g1 := branch.1
  let dur := branch.2.1
  let evs1 := branch.2.2
  match listGetI g1.rounds (g1.currentRound - 1) with
  | none => indexPanicRes g1 evs1 dur
  | some round =>
    { state := g1,
      broadcasts := evs1 ++ [{ type := .ReadingRoundServer, exp := now + dur,
                               data := .readingRoundData round.name }],
      sends := [], unregisters := [], closed := false,
      ctl := .continueLoop, newDuration := dur, panicked := none }

/-- ReadingRound tick (game.go:503-519). -/
def readingRoundTickCase (now : Int) (g : GameState) : StepResult :=
  match listGetI g.rounds (g.currentRound - 1) with
  | none => indexPanicRes g [] 0
  | some round =>
    let dur : Int := 3 * round.themes.length
    { state := { g with currentStep := .ReadingThemes },
      broadcasts := [{ type := .ReadingThemesServer, exp := now + dur,
                       data := .readingThemesData (round.themes.map Theme.name) }],
      sends := [], unregisters := [], closed := false,
      ctl := .continueLoop, newDuration := dur, panicked := none }

/-- ReadingThemes tick (game.go:520-531). -/
def readingThemesTickCase (now : Int) (g : GameState) : StepResult :=
  match listGetI g.rounds (g.currentRound - 1) with
  | none => indexPanicRes g [] 0
  | some round =>
    { state := { g with currentStep := .ChooseQuestion },
      broadcasts := [{ type := .WallServer, exp := now + 30,
                       data := .wallData round.themes }],
      sends := [], unregisters := [], closed := false,
      ctl := .continueLoop, newDuration := 30, panicked := none }

/-- ChooseQuestion tick (game.go:532-556): the step is set to Getting first,
then the last question with price >= 0 is picked (no break in the loop); a
round with no available question leaves quest nil and quest.Id panics. -/
def chooseQuestionTickCase (now : Int) (g : GameState) : StepResult :=
  let g1 := { g with currentStep := Step.Getting }
  match listGetI g1.rounds (g1.currentRound - 1) with
  | none => indexPanicRes g1 [] 0
  | some round =>
    match pickLastAvailable round.themes with
    | none => nilPanicRes g1 [] 0
    | some pick =>
      { state := { g1 with currentQuestion := pick.2.id, currentTheme := pick.1 },
        broadcasts := [{ type := .GetQuestServer, exp := now + 10,
                         data := .getQuestData g1.currentPlayerID }],
        sends := [], unregisters := [], closed := false,
        ctl := .continueLoop, newDuration := 10, panicked := none }

/-- Getting tick (game.go:559-602): exhaustion logic (30 s on round advance,
10 s otherwise, 5 min on Final), then the current question's price is set to
-1 in place - using the possibly already incremented currentRound - and the
updated wall is broadcast. -/
def gettingTickCase (now : Int) (g : GameState) : StepResult :=
  match listGetI g.rounds (g.currentRound - 1) with
  | none => indexPanicRes g [] 0
  | some round =>
    let branch := exhaustBranch g (foundAvailable round g.currentQuestion) 10 30
      [{ type := .FinalServer, exp := now + 300,
         data := .finalData (computeWinner g.players g.playersQueueIDByToken) }]
    let g1 := branch.1
    let dur := branch.2.1
    let evs1 := branch.2.2
    match questAt g1 with
    | none => indexPanicRes g1 evs1 dur
    | some _ =>
      let g2 := { g1 with rounds := (setQuestPrice g1.rounds (g1.currentRound - 1)
                    (g1.currentTheme - 1) (g1.currentQuestion - 1) (-1)) }
      { state := g2,
        broadcasts := evs1 ++
          [{ type := .WallServer, exp := now + dur,
             data := .wallData
               (((listGetI g2.rounds (g2.currentRound - 1)).map Round.themes).getD []) }],
        sends := [], unregisters := [], closed := false,
        ctl := .continueLoop, newDuration := dur, panicked := none }

/-- Answering tick (game.go:603-652): exhaustion logic (10 s in every
non-final branch), then the player designated by
playersTokenByQueueID[currentPlayerID] is debited, the rotation runs, and the
score_changed payload reads the score of the player the NEW currentPlayerID
designates. -/
def answeringTickCase (now : Int) (g : GameState) : StepResult :=
  match listGetI g.rounds (g.currentRound - 1) with
  | none => indexPanicRes g [] 0
  | some round =>
    let branch := exhaustBranch g (foundAvailable round g.currentQuestion) 10 10
      [{ type := .FinalServer, exp := now + 300,
         data := .finalData (computeWinner g.players g.playersQueueIDByToken) }]
    let g1 := branch.1
    let dur := branch.2.1
    let evs1 := branch.2.2
    match questAt g1 with
    | none => indexPanicRes g1 evs1 dur
    | some curQuest =>
      let tokCur := (lookupKey g1.playersTokenByQueueID g1.currentPlayerID).getD ""
      match lookupKey g1.clients tokCur with
      | none => nilPanicRes g1 evs1 dur
      | some _ =>
        match lookupKey g1.players tokCur with
        | none => nilPanicRes g1 evs1 dur
        | some _ =>
          let g2 := { g1 with players := updateScore g1.players tokCur (-curQuest.price) }
          let g3 := rotatePlayer g2
          let tokNew := (lookupKey g3.playersTokenByQueueID g3.currentPlayerID).getD ""
          match lookupKey g3.clients tokNew with
          | none => nilPanicRes g3 evs1 dur
          | some _ =>
            match lookupKey g3.players tokNew with
            | none => nilPanicRes g3 evs1 dur
            | some newScore =>
              { state := g3,
                broadcasts := evs1 ++
                  [{ type := .ScoreChangedServer, exp := now + dur,
                     data := .scoreChangedData g3.currentPlayerID newScore }],
                sends := [], unregisters := [], closed := false,
                ctl := .continueLoop, newDuration := dur, panicked := none }

/-- One pass of the timer-tick select arm (game.go:466-669).  WaitingStart
and Final signal hub.close (the break there only leaves the switch, so the
loop itself keeps running); Pause has no case. -/
def handleTick (now : Int) (g : GameState) : StepResult :=
  match g.currentStep with
  | .WaitingStart => { noChange g with closed := true }
  | .Grettings => grettingsTickCase now g
  | .ReadingRound => readingRoundTickCase now g
  | .ReadingThemes => readingThemesTickCase now g
  | .ChooseQuestion => chooseQuestionTickCase now g
  | .Getting => gettingTickCase now g
  | .Answering => answeringTickCase now g
  | .Pause => noChange g
  | .Final => { noChange g with closed := true }

/-! Concrete verifier outcomes and packs used by the claim theorems. -/

/-- A verifier that accepts every bearer string with a far-future expiry. -/
def parseOk : String → Except String Token :=
  fun s => .ok { id := 0, login := s, expiresAt := 1000000 }

/-- A verifier that rejects every bearer string. -/
def parseFail : String → Except String Token :=
  fun _ => .error "token parse error"

/-- A verifier that accepts every bearer string with an expiry in the past. -/
def parseExpired : String → Except String Token :=
  fun s => .ok { id := 0, login := s, expiresAt := -1 }

/-- A question with no scene and answer objects. -/
def mkQ (i p : Int) : Question := { id := i, price := p, scene := [], answer := [] }

/-- An empty room before any pack or client is attached. -/
def baseState : GameState :=
  { name := "pack", author := "auth", date := "2020", rounds := [],
    clients := [], players := [], playersQueueIDByToken := [],
    playersTokenByQueueID := [],
    currentStep := .WaitingStart, currentPlayerID := 0, currentRound := 0,
    currentTheme := 0, currentQuestion := 0 }

/-- A room with one mapped User client A and nothing else. -/
def c1State : GameState := { baseState with clients := [("A", .User)] }

/-- Claim C1: an event whose token fails to parse or has expired should
unregister the still-mapped sender and be ignored, with the loop continuing.
The code does the opposite: when the sender IS still mapped, the inverted
ok check skips the whole unregister block and the return statement exits
runGame, so no client is unregistered and no further event is ever
processed; when the sender is NOT mapped, the block dereferences the nil
client and panics.  Both behaviours are exhibited below (parse failure and
expiry for a mapped sender, parse failure for an unmapped one). -/
theorem C1_token_failure_never_unregisters_and_exits_loop :
    (handleClientEvent parseFail 0 c1State
        { type := .GetQuest, token := "A", data := none }).unregisters = [] ∧
    (handleClientEvent parseFail 0 c1State
        { type := .GetQuest, token := "A", data := none }).ctl = .returnLoop ∧
    (handleClientEvent parseFail 0 c1State
        { type := .GetQuest, token := "A", data := none }).state = c1State ∧
    (handleClientEvent parseExpired 0 c1State
        { type := .GetQuest, token := "A", data := none }).unregisters = [] ∧
    (handleClientEvent parseExpired 0 c1State
        { type := .GetQuest, token := "A", data := none }).ctl = .returnLoop ∧
    (handleClientEvent parseFail 0 c1State
        { type := .GetQuest, token := "B", data := none }).panicked =
      some .nilDeref := by
  decide

/-- A room on the last (only) question of the last (only) round: one round,
one theme, one question, currently being answered by player A. -/
def c2State : GameState :=
  { baseState with
      rounds := [{ id := 1, name := "R1",
                   themes := [{ id := 1, name := "T1", quests := [mkQ 1 100] }] }],
      clients := [("L", .Leader), ("A", .User), ("B", .User)],
      players := [("A", 0), ("B", 0)],
      playersQueueIDByToken := [("A", 1), ("B", 2)],
      playersTokenByQueueID := [(1, "A"), (2, "B")],
      currentStep := .Answering, currentPlayerID := 1,
      currentRound := 1, currentTheme := 1, currentQuestion := 1 }

/-- Claim C2: with the round exhausted and no further round, accept_answer
should enter Final and broadcast final_server.  The guard
len(Rounds) > currentRound-1 is off by one (compare the correct
len(Rounds) > currentRound in the Grettings tick), so on the last question
of the last round the code instead increments currentRound past the pack
and enters ChooseQuestion, then panics indexing Rounds[currentRound-1];
nothing is broadcast.  The Final branch is dead code: reaching its guard
requires the indexing of Rounds[currentRound-1] in the exhaustion check to
have succeeded, which forces the guard to take the round-increment arm. -/
theorem C2_last_round_accept_misses_final :
    (handleClientEvent parseOk 0 c2State
        { type := .AcceptAnswer, token := "L", data := none }).state.currentStep =
      .ChooseQuestion ∧
    (handleClientEvent parseOk 0 c2State
        { type := .AcceptAnswer, token := "L", data := none }).state.currentRound = 2 ∧
    (handleClientEvent parseOk 0 c2State
        { type := .AcceptAnswer, token := "L", data := none }).broadcasts = [] ∧
    (handleClientEvent parseOk 0 c2State
        { type := .AcceptAnswer, token := "L", data := none }).panicked =
      some .indexOutOfRange := by
  decide

/-- A room in step Getting whose only mapped client A never joined as a
player. -/
def c4State : GameState :=
  { baseState with clients := [("A", .User)], currentStep := .Getting }

/-- Claim C4: the game loop should never panic on bad input.  A get_quest
in step Getting from a client that is mapped in the hub but absent from the
players roster reads players[clients[event.Token]], obtaining a nil Player,
and dereferences it - a runtime panic that kills the loop. -/
theorem C4_get_quest_without_player_panics :
    (handleClientEvent parseOk 0 c4State
        { type := .GetQuest, token := "A", data := none }).panicked =
      some .nilDeref := by
  decide

/-- Scenario S2 of the spec right before the winner computation: Alice at
-200 after the decline, Bob at 0. -/
def c5Players : List (String × Int) := [("A", -200), ("B", 0)]

/-- Queue ids of scenario S2: Alice is 1, Bob is 2. -/
def c5QueueIDs : List (String × Int) := [("A", 1), ("B", 2)]

/-- Scenario S2 of the spec at the moment the Leader declines: one round,
one theme, one question of price 200 just taken by Alice. -/
def c5State : GameState :=
  { baseState with
      rounds := [{ id := 1, name := "R1",
                   themes := [{ id := 1, name := "T1", quests := [mkQ 1 200] }] }],
      clients := [("L", .Leader), ("A", .User), ("B", .User)],
      players := [("A", 0), ("B", 0)],
      playersQueueIDByToken := c5QueueIDs,
      playersTokenByQueueID := [(1, "A"), (2, "B")],
      currentStep := .Answering, currentPlayerID := 1,
      currentRound := 1, currentTheme := 1, currentQuestion := 1 }

/-- Claim C5: on entering Final, winnerID should be the queue id of the
maximum-score player (first in insertion order on ties), hence 2 in
scenario S2.  The fold initialises maxScore to 0 and only replaces on a
strictly greater score, so when every score is <= 0 - exactly scenario
S2 - winnerID stays 0, whatever the map iteration order (both orders of
the two players are computed below).  Moreover the decline transition of
S2 never even reaches the winner computation: the off-by-one round guard
sends it to the round-increment arm and it panics indexing the missing
round 2, broadcasting nothing, so final_server{winnerID=2} is never
emitted. -/
theorem C5_s2_winner_is_zero_not_bob :
    computeWinner c5Players c5QueueIDs = 0 ∧
    computeWinner c5Players.reverse c5QueueIDs = 0 ∧
    (0 : Int) ≠ 2 ∧
    (handleClientEvent parseOk 0 c5State
        { type := .DeclineAnswer, token := "L", data := none }).broadcasts = [] ∧
    (handleClientEvent parseOk 0 c5State
        { type := .DeclineAnswer, token := "L", data := none }).panicked =
      some .indexOutOfRange := by
  decide

/-- A room with two questions (so the round is not exhausted), player A
currently answering, and the Leader L mapped but - as always, since join
never adds a Leader to the roster - absent from the players map. -/
def c6State : GameState :=
  { baseState with
      rounds := [{ id := 1, name := "R1",
                   themes := [{ id := 1, name := "T1",
                                quests := [mkQ 1 100, mkQ 2 200] }] }],
      clients := [("L", .Leader), ("A", .User), ("B", .User)],
      players := [("A", 0), ("B", 0)],
      playersQueueIDByToken := [("A", 1), ("B", 2)],
      playersTokenByQueueID := [(1, "A"), (2, "B")],
      currentStep := .Answering, currentPlayerID := 1,
      currentRound := 1, currentTheme := 1, currentQuestion := 1 }

/-- Claim C6: decline_answer should debit the current player (designated by
currentPlayerID, here A).  The code debits players[clients[event.Token]],
i.e. the Player entry of the event sender - the Leader - instead; the
Leader has no Player entry, so the statement dereferences nil and panics,
and the current player's score is untouched. -/
theorem C6_decline_debits_sender_not_current_player :
    (handleClientEvent parseOk 0 c6State
        { type := .DeclineAnswer, token := "L", data := none }).panicked =
      some .nilDeref ∧
    (handleClientEvent parseOk 0 c6State
        { type := .DeclineAnswer, token := "L", data := none }).state.players =
      [("A", 0), ("B", 0)] := by
  decide

/-- Pack used by the consumption traces: one round, one theme, two
questions q1 (id 1, price 100) and q2 (id 2, price 200). -/
def twoQuestPack : List Round :=
  [{ id := 1, name := "R1",
     themes := [{ id := 1, name := "T1", quests := [mkQ 1 100, mkQ 2 200] }] }]

/-- Start of the timeout trace: step ChooseQuestion, players A and B. -/
def c3State0 : GameState :=
  { baseState with
      rounds := twoQuestPack,
      clients := [("L", .Leader), ("A", .User), ("B", .User)],
      players := [("A", 0), ("B", 0)],
      playersQueueIDByToken := [("A", 1), ("B", 2)],
      playersTokenByQueueID := [(1, "A"), (2, "B")],
      currentStep := .ChooseQuestion, currentPlayerID := 1,
      currentRound := 1, currentTheme := 1, currentQuestion := 0 }

/-- Tick 1: the ChooseQuestion tick auto-picks q2. -/
def c3s1 : StepResult := handleTick 0 c3State0

/-- A takes the question. -/
def c3s2 : StepResult :=
  handleClientEvent parseOk 0 c3s1.state { type := .GetQuest, token := "A", data := none }

/-- Tick 2: the Answering timeout scores q2 against A. -/
def c3s3 : StepResult := handleTick 0 c3s2.state

/-- Tick 3: the next ChooseQuestion tick picks again. -/
def c3s4 : StepResult := handleTick 0 c3s3.state

/-- B takes the question. -/
def c3s5 : StepResult :=
  handleClientEvent parseOk 0 c3s4.state { type := .GetQuest, token := "B", data := none }

/-- Tick 4: the Answering timeout scores q2 a second time, against B. -/
def c3s6 : StepResult := handleTick 0 c3s5.state

/-- Start of the accept trace: A is answering q2; the sender of the accepts
holds a Player entry so that the score_changed payload construction does
not panic. -/
def c3d0 : GameState :=
  { baseState with
      rounds := twoQuestPack,
      clients := [("L", .Leader), ("A", .User)],
      players := [("A", 0), ("L", 0)],
      playersQueueIDByToken := [("A", 1), ("L", 2)],
      playersTokenByQueueID := [(1, "A"), (2, "L")],
      currentStep := .Answering, currentPlayerID := 1,
      currentRound := 1, currentTheme := 1, currentQuestion := 2 }

/-- The Leader accepts A's answer on q2. -/
def c3d1 : StepResult :=
  handleClientEvent parseOk 0 c3d0 { type := .AcceptAnswer, token := "L", data := none }

/-- The ChooseQuestion tick picks q2 again. -/
def c3d2 : StepResult := handleTick 0 c3d1.state

/-- A takes it again. -/
def c3d3 : StepResult :=
  handleClientEvent parseOk 0 c3d2.state { type := .GetQuest, token := "A", data := none }

/-- The Leader accepts q2 a second time. -/
def c3d4 : StepResult :=
  handleClientEvent parseOk 0 c3d3.state { type := .AcceptAnswer, token := "L", data := none }

/-- Claim C3: each question should be consumed at most once, its price
turning -1 at consumption, and a question scored by accept_answer or
decline_answer should never be selected or scored again.  Only the Getting
timeout ever writes price = -1; the accept/decline handlers and the
Answering timeout score a question without marking it, so it stays
available to the ChooseQuestion auto-pick and is scored again.  Two traces:
in the timeout trace, q2 is scored against A (tick c3s3), keeps price 200
(c3s3's pack equals the initial pack), is auto-picked again (c3s4), and is
scored against B (c3s6); in the accept trace, q2 is scored via
accept_answer (c3d1, A credited 200), auto-picked again (c3d2), and scored
via accept_answer a second time (c3d4, A at 400).  No step panics. -/
theorem C3_question_scored_twice_price_never_minus_one :
    c3s3.state.players = [("A", -200), ("B", 0)] ∧
    c3s3.state.rounds = twoQuestPack ∧
    c3s4.state.currentQuestion = 2 ∧
    c3s4.state.currentStep = .Getting ∧
    c3s6.state.players = [("A", -200), ("B", -200)] ∧
    c3s6.state.rounds = twoQuestPack ∧
    c3s1.panicked = none ∧ c3s2.panicked = none ∧ c3s3.panicked = none ∧
    c3s4.panicked = none ∧ c3s5.panicked = none ∧ c3s6.panicked = none ∧
    c3d1.state.players = [("A", 200), ("L", 0)] ∧
    c3d1.state.rounds = twoQuestPack ∧
    c3d2.state.currentQuestion = 2 ∧
    c3d2.state.currentStep = .Getting ∧
    c3d4.state.players = [("A", 400), ("L", 0)] ∧
    c3d4.state.rounds = twoQuestPack ∧
    c3d1.panicked = none ∧ c3d2.panicked = none ∧ c3d3.panicked = none ∧
    c3d4.panicked = none := by
  decide

/-! Claim C7: the ChooseQuestion tick auto-pick.  The loop in
game.go:538-545 has no break, so the pair it leaves in themeID/quest is the
LAST question with price >= 0 in theme order then question order, not the
first.  specFirstAvailable and specLastAvailable below are written from the
spec's words (first / last question with price >= 0 in the flattened
theme-then-question order); the refinement lemma identifies the source loop
with specLastAvailable. -/

/-- All (theme id, question) pairs of a wall in theme order then question
order. -/
def questionPairs (themes : List Theme) : List (Int × Question) :=
  themes.bind fun t => t.quests.map fun q => (t.id, q)

/-- Availability of a pair: the question's price is still >= 0. -/
def availPair (p : Int × Question) : Bool := decide (0 ≤ p.2.price)

/-- The first available question of a wall, as the spec words it. -/
def specFirstAvailable (themes : List Theme) : Option (Int × Question) :=
  (questionPairs themes).find? availPair

/-- The last available question of a wall: the first available pair of the
reversed flattened order. -/
def specLastAvailable (themes : List Theme) : Option (Int × Question) :=
  (questionPairs themes).reverse.find? availPair

/-- find? distributes over append, preferring the left list. -/
theorem find?_append {α : Type} (p : α → Bool) (l1 l2 : List α) :
    (l1 ++ l2).find? p =
      match l1.find? p with
      | some y => some y
      | none => l2.find? p := by
  induction l1 with
  | nil => simp
  | cons x xs ih =>
    by_cases h : p x <;> simp [List.find?_cons, h, ih]

/-- A keep-the-last-match foldl computes find? on the reversed list,
falling back to the accumulator. -/
theorem foldl_keepLast {α : Type} (p : α → Bool) (l : List α) :
    ∀ acc : Option α,
      l.foldl (fun a x => if p x then some x else a) acc =
        match l.reverse.find? p with
        | some y => some y
        | none => acc := by
  induction l with
  | nil => intro acc; simp
  | cons x xs ih =>
    intro acc
    rw [List.foldl_cons, ih, List.reverse_cons, find?_append]
    cases hxs : xs.reverse.find? p <;> by_cases hx : p x <;>
      simp [List.find?_cons, hx]

/-- The nested source loop is the keep-the-last-match fold over the
flattened pair list. -/
theorem pickLastAvailable_eq_foldl_pairs (themes : List Theme) :
    ∀ acc : Option (Int × Question),
      themes.foldl
        (fun acc t =>
          t.quests.foldl
            (fun acc2 q => if decide (0 ≤ q.price) then some (t.id, q) else acc2)
            acc)
        acc =
      (questionPairs themes).foldl (fun a x => if availPair x then some x else a) acc := by
  induction themes with
  | nil => intro acc; simp [questionPairs]
  | cons t ts ih =>
    intro acc
    rw [List.foldl_cons]
    show ts.foldl _ _ = _
    rw [ih]
    have hpairs : questionPairs (t :: ts) =
        (t.quests.map fun q => (t.id, q)) ++ questionPairs ts := by
      simp [questionPairs]
    rw [hpairs, List.foldl_append, List.foldl_map]
    rfl

/-- Refinement: the source auto-pick returns exactly the last available
question of the wall. -/
theorem pickLastAvailable_eq_spec (themes : List Theme) :
    pickLastAvailable themes = specLastAvailable themes := by
  unfold pickLastAvailable specLastAvailable
  rw [pickLastAvailable_eq_foldl_pairs, foldl_keepLast]
  cases h : (questionPairs themes).reverse.find? availPair <;> simp

/-- Wall with two available questions used as the C7 counterexample. -/
def c7State : GameState :=
  { baseState with
      rounds := twoQuestPack,
      clients := [("L", .Leader), ("A", .User), ("B", .User)],
      players := [("A", 0), ("B", 0)],
      playersQueueIDByToken := [("A", 1), ("B", 2)],
      playersTokenByQueueID := [(1, "A"), (2, "B")],
      currentStep := .ChooseQuestion, currentPlayerID := 1,
      currentRound := 1, currentTheme := 1, currentQuestion := 0 }

/-- Claim C7, counterexample: with q1 (id 1) and q2 (id 2) both available,
the first available question is q1, but the tick records currentQuestion =
2: the code picks the last available question, not the first. -/
theorem C7_counterexample_picks_last_not_first :
    specFirstAvailable ((twoQuestPack.get? 0).getD ⟨0, "", []⟩).themes =
      some (1, mkQ 1 100) ∧
    (handleTick 0 c7State).state.currentQuestion = 2 ∧
    (handleTick 0 c7State).state.currentTheme = 1 ∧
    (handleTick 0 c7State).panicked = none := by
  decide

/-- Claim C7 as amended: on a timer tick in step ChooseQuestion with at
least one available (price >= 0) question on the wall, the game auto-picks
the LAST available question in theme order then question order, records it
as currentTheme/currentQuestion, enters Getting with a 10 s timer, and
broadcasts get_quest_server carrying queueID = currentPlayerID. -/
theorem C7_amended_tick_picks_last_available (now : Int) (g : GameState)
    (round : Round) (pick : Int × Question)
    (hstep : g.currentStep = .ChooseQuestion)
    (hround : listGetI g.rounds (g.currentRound - 1) = some round)
    (hpick : specLastAvailable round.themes = some pick) :
    handleTick now g =
      { state := { g with currentStep := .Getting, currentTheme := pick.1,
                          currentQuestion := pick.2.id },
        broadcasts := [{ type := .GetQuestServer, exp := now + 10,
                         data := .getQuestData g.currentPlayerID }],
        sends := [], unregisters := [], closed := false,
        ctl := .continueLoop, newDuration := 10, panicked := none } := by
  unfold handleTick
  rw [hstep]
  unfold chooseQuestionTickCase
  dsimp only
  rw [hround]
  dsimp only
  rw [pickLastAvailable_eq_spec, hpick]

/-- Witness for the amended C7 at the concrete two-question wall. -/
theorem C7_amended_witness :
    handleTick 0 c7State =
      { state := { c7State with currentStep := .Getting, currentTheme := 1,
                                currentQuestion := 2 },
        broadcasts := [{ type := .GetQuestServer, exp := 0 + 10,
                         data := .getQuestData c7State.currentPlayerID }],
        sends := [], unregisters := [], closed := false,
        ctl := .continueLoop, newDuration := 10, panicked := none } :=
  C7_amended_tick_picks_last_available 0 c7State
    { id := 1, name := "R1", themes := [{ id := 1, name := "T1", quests := [mkQ 1 100, mkQ 2 200] }] }
    (1, mkQ 2 200) rfl (by decide) (by decide)


/-- Every broadcast of the list carries exp 0 or exp now + dur. -/
def ExpOk (now dur : Int) (l : List ServerEvent) : Prop :=
  ∀ b ∈ l, b.exp = 0 ∨ b.exp = now + dur

theorem ExpOk_append {now dur : Int} {l1 l2 : List ServerEvent}
    (h1 : ExpOk now dur l1) (h2 : ExpOk now dur l2) : ExpOk now dur (l1 ++ l2) := by
  intro b hb
  rcases List.mem_append.mp hb with h | h
  · exact h1 b h
  · exact h2 b h

theorem ExpOk_exhaustBranch (now : Int) (g : GameState) (found : Bool)
    (durStay durAdvance : Int) (finalEvs : List ServerEvent)
    (h : ExpOk now 300 finalEvs) :
    ExpOk now (exhaustBranch g found durStay durAdvance finalEvs).2.1
      (exhaustBranch g found durStay durAdvance finalEvs).2.2 := by
  unfold exhaustBranch
  split
  · split
    · simp [ExpOk]
    · exact h
  · simp [ExpOk]

theorem ExpOk_startGame (now : Int) (g : GameState) (e : ClientEvent) :
    ExpOk now (startGameCase now g e).newDuration (startGameCase now g e).broadcasts := by
  unfold startGameCase
  split
  · split <;> simp [ExpOk, noChange, nilPanicRes]
  · simp [ExpOk]

theorem ExpOk_accept (now : Int) (g : GameState) (e : ClientEvent) :
    ExpOk now (acceptAnswerCase now g e).newDuration (acceptAnswerCase now g e).broadcasts := by
  unfold acceptAnswerCase
  split
  · simp [ExpOk, indexPanicRes]
  · next round hr =>
    dsimp only
    have hEvs := ExpOk_exhaustBranch now g (foundAvailable round g.currentQuestion) 30 30
      [{ type := .FinalServer, exp := now + 300,
         data := .finalData (computeWinner g.players g.playersQueueIDByToken) }]
      (by simp [ExpOk])
    rcases hB : exhaustBranch g (foundAvailable round g.currentQuestion) 30 30
      [{ type := .FinalServer, exp := now + 300,
         data := .finalData (computeWinner g.players g.playersQueueIDByToken) }] with ⟨g1, dur, evs1⟩
    rw [hB] at hEvs
    dsimp only at hEvs ⊢
    split
    · simpa [ExpOk, indexPanicRes] using hEvs
    · split
      · simpa [ExpOk, nilPanicRes] using hEvs
      · split
        · simpa [ExpOk, nilPanicRes] using hEvs
        · split
          · simpa [ExpOk, nilPanicRes] using hEvs
          · split
            · simpa [ExpOk, nilPanicRes] using hEvs
            · dsimp only
              exact ExpOk_append hEvs (by simp [ExpOk])


theorem ExpOk_decline (now : Int) (g : GameState) (e : ClientEvent) :
    ExpOk now (declineAnswerCase now g e).newDuration (declineAnswerCase now g e).broadcasts := by
  unfold declineAnswerCase
  split
  · simp [ExpOk, indexPanicRes]
  · next round hr =>
    dsimp only
    have hEvs := ExpOk_exhaustBranch now g (foundAvailable round g.currentQuestion) 10 30
      [{ type := .AnswerDeclinedServer, exp := now + 300, data := .noData },
       { type := .FinalServer, exp := 0,
         data := .finalData (computeWinner g.players g.playersQueueIDByToken) }]
      (by simp [ExpOk])
    rcases hB : exhaustBranch g (foundAvailable round g.currentQuestion) 10 30
      [{ type := .AnswerDeclinedServer, exp := now + 300, data := .noData },
       { type := .FinalServer, exp := 0,
         data := .finalData (computeWinner g.players g.playersQueueIDByToken) }] with ⟨g1, dur, evs1⟩
    rw [hB] at hEvs
    dsimp only at hEvs ⊢
    repeat' split
    all_goals first
      | simpa [ExpOk, nilPanicRes, indexPanicRes] using hEvs
      | (dsimp only; exact ExpOk_append hEvs (by simp [ExpOk]))

theorem ExpOk_gettingTick (now : Int) (g : GameState) :
    ExpOk now (gettingTickCase now g).newDuration (gettingTickCase now g).broadcasts := by
  unfold gettingTickCase
  split
  · simp [ExpOk, indexPanicRes]
  · next round hr =>
    dsimp only
    have hEvs := ExpOk_exhaustBranch now g (foundAvailable round g.currentQuestion) 10 30
      [{ type := .FinalServer, exp := now + 300,
         data := .finalData (computeWinner g.players g.playersQueueIDByToken) }]
      (by simp [ExpOk])
    rcases hB : exhaustBranch g (foundAvailable round g.currentQuestion) 10 30
      [{ type := .FinalServer, exp := now + 300,
         data := .finalData (computeWinner g.players g.playersQueueIDByToken) }] with ⟨g1, dur, evs1⟩
    rw [hB] at hEvs
    dsimp only at hEvs ⊢
    repeat' split
    all_goals first
      | simpa [ExpOk, nilPanicRes, indexPanicRes] using hEvs
      | (dsimp only; exact ExpOk_append hEvs (by simp [ExpOk]))

theorem ExpOk_answeringTick (now : Int) (g : GameState) :
    ExpOk now (answeringTickCase now g).newDuration (answeringTickCase now g).broadcasts := by
  unfold answeringTickCase
  split
  · simp [ExpOk, indexPanicRes]
  · next round hr =>
    dsimp only
    have hEvs := ExpOk_exhaustBranch now g (foundAvailable round g.currentQuestion) 10 10
      [{ type := .FinalServer, exp := now + 300,
         data := .finalData (computeWinner g.players g.playersQueueIDByToken) }]
      (by simp [ExpOk])
    rcases hB : exhaustBranch g (foundAvailable round g.currentQuestion) 10 10
      [{ type := .FinalServer, exp := now + 300,
         data := .finalData (computeWinner g.players g.playersQueueIDByToken) }] with ⟨g1, dur, evs1⟩
    rw [hB] at hEvs
    dsimp only at hEvs ⊢
    repeat' split
    all_goals first
      | simpa [ExpOk, nilPanicRes, indexPanicRes] using hEvs
      | (dsimp only; exact ExpOk_append hEvs (by simp [ExpOk]))

theorem ExpOk_joinCase (g : GameState) (e : ClientEvent) (t : Token) (now : Int) :
    ExpOk now (joinCase g e t).newDuration (joinCase g e t).broadcasts := by
  unfold joinCase
  repeat' split
  all_goals simp [ExpOk, noChange, nilPanicRes]

theorem ExpOk_disconnectCase (g : GameState) (e : ClientEvent) (now : Int) :
    ExpOk now (disconnectCase g e).newDuration (disconnectCase g e).broadcasts := by
  unfold disconnectCase
  simp [ExpOk]

theorem ExpOk_chooseQuestCase (now : Int) (g : GameState) (e : ClientEvent) :
    ExpOk now (chooseQuestCase now g e).newDuration (chooseQuestCase now g e).broadcasts := by
  unfold chooseQuestCase
  repeat' split
  all_goals simp [ExpOk, noChange]

theorem ExpOk_getQuestCase (now : Int) (g : GameState) (e : ClientEvent) :
    ExpOk now (getQuestCase now g e).newDuration (getQuestCase now g e).broadcasts := by
  unfold getQuestCase
  repeat' split
  all_goals simp [ExpOk, noChange, nilPanicRes]

theorem ExpOk_grettingsTick (now : Int) (g : GameState) :
    ExpOk now (grettingsTickCase now g).newDuration (grettingsTickCase now g).broadcasts := by
  unfold grettingsTickCase
  have hEvs : ExpOk now
      (if (g.rounds.length : Int) > g.currentRound then
        ({ g with currentStep := .ReadingRound, currentRound := g.currentRound + 1 },
         (4 : Int), ([] : List ServerEvent))
      else
        ({ g with currentStep := .Final }, 300,
         [{ type := .FinalServer, exp := now + 300, data := .finalData 1 }])).2.1
      (if (g.rounds.length : Int) > g.currentRound then
        ({ g with currentStep := .ReadingRound, currentRound := g.currentRound + 1 },
         (4 : Int), ([] : List ServerEvent))
      else
        ({ g with currentStep := .Final }, 300,
         [{ type := .FinalServer, exp := now + 300, data := .finalData 1 }])).2.2 := by
    split <;> simp [ExpOk]
  rcases hB : (if (g.rounds.length : Int) > g.currentRound then
        ({ g with currentStep := .ReadingRound, currentRound := g.currentRound + 1 },
         (4 : Int), ([] : List ServerEvent))
      else
        ({ g with currentStep := .Final }, 300,
         [{ type := .FinalServer, exp := now + 300, data := .finalData 1 }])) with ⟨g1, dur, evs1⟩
  rw [hB] at hEvs
  dsimp only at hEvs ⊢
  repeat' split
  all_goals first
    | simpa [ExpOk, nilPanicRes, indexPanicRes] using hEvs
    | (dsimp only; exact ExpOk_append hEvs (by simp [ExpOk]))

theorem ExpOk_readingRoundTick (now : Int) (g : GameState) :
    ExpOk now (readingRoundTickCase now g).newDuration (readingRoundTickCase now g).broadcasts := by
  unfold readingRoundTickCase
  repeat' split
  all_goals simp [ExpOk, indexPanicRes]

theorem ExpOk_readingThemesTick (now : Int) (g : GameState) :
    ExpOk now (readingThemesTickCase now g).newDuration (readingThemesTickCase now g).broadcasts := by
  unfold readingThemesTickCase
  repeat' split
  all_goals simp [ExpOk, indexPanicRes]

theorem ExpOk_chooseQuestionTick (now : Int) (g : GameState) :
    ExpOk now (chooseQuestionTickCase now g).newDuration (chooseQuestionTickCase now g).broadcasts := by
  unfold chooseQuestionTickCase
  dsimp only
  split
  · simp [ExpOk, indexPanicRes]
  · split
    · simp [ExpOk, nilPanicRes]
    · simp [ExpOk]

theorem ExpOk_handleClientEvent (parse : String → Except String Token) (now : Int)
    (g : GameState) (e : ClientEvent) :
    ExpOk now (handleClientEvent parse now g e).newDuration
      (handleClientEvent parse now g e).broadcasts := by
  have hD : ∀ t : Token, ExpOk now (dispatchEvent now g e t).newDuration
      (dispatchEvent now g e t).broadcasts := by
    intro t
    unfold dispatchEvent
    cases e.type
    · exact ExpOk_startGame now g e
    · exact ExpOk_joinCase g e t now
    · exact ExpOk_disconnectCase g e now
    · exact ExpOk_getQuestCase now g e
    · exact ExpOk_chooseQuestCase now g e
    · simp [ExpOk, noChange]
    · exact ExpOk_decline now g e
    · exact ExpOk_accept now g e
    · simp [ExpOk, noChange]
  unfold handleClientEvent
  split
  · split <;> simp [ExpOk, noChange, nilPanicRes]
  · split
    · split <;> simp [ExpOk, noChange, nilPanicRes]
    · dsimp only
      split
      · exact hD _
      · split
        · simp [ExpOk, nilPanicRes]
        · split
          · exact hD _
          · simp [ExpOk, noChange]

theorem ExpOk_handleTick (now : Int) (g : GameState) :
    ExpOk now (handleTick now g).newDuration (handleTick now g).broadcasts := by
  unfold handleTick
  cases g.currentStep
  · simp [ExpOk, noChange]
  · exact ExpOk_grettingsTick now g
  · exact ExpOk_readingRoundTick now g
  · exact ExpOk_readingThemesTick now g
  · exact ExpOk_chooseQuestionTick now g
  · exact ExpOk_gettingTick now g
  · exact ExpOk_answeringTick now g
  · simp [ExpOk, noChange]
  · simp [ExpOk, noChange]


theorem joinDisconnect_no_rearm (parse : String → Except String Token) (now : Int)
    (g : GameState) (e : ClientEvent)
    (h : e.type = .Join ∨ e.type = .Disconnect) :
    (handleClientEvent parse now g e).newDuration = 0 ∧
    ∀ b ∈ (handleClientEvent parse now g e).broadcasts, b.exp = 0 := by
  have hd : ∀ t : Token, (dispatchEvent now g e t).newDuration = 0 ∧
      ∀ b ∈ (dispatchEvent now g e t).broadcasts, b.exp = 0 := by
    intro t
    unfold dispatchEvent
    rcases h with h | h <;> rw [h] <;> dsimp only
    · unfold joinCase
      repeat' split
      all_goals simp [noChange, nilPanicRes]
    · unfold disconnectCase
      simp
  unfold handleClientEvent
  split
  · split <;> simp [noChange, nilPanicRes]
  · split
    · split <;> simp [noChange, nilPanicRes]
    · dsimp only
      split
      · exact hd _
      · split
        · simp [nilPanicRes]
        · split
          · exact hd _
          · simp [noChange]


/-- A room where the accepting Leader also holds a Player entry, so that
accept_answer runs to completion (with the sender outside the roster the
handler would panic building the score_changed payload). -/
def c8State : GameState :=
  { baseState with
      rounds := twoQuestPack,
      clients := [("L", .Leader), ("A", .User)],
      players := [("A", 0), ("L", 0)],
      playersQueueIDByToken := [("A", 1), ("L", 2)],
      playersTokenByQueueID := [(1, "A"), (2, "L")],
      currentStep := .Answering, currentPlayerID := 1,
      currentRound := 1, currentTheme := 1, currentQuestion := 1 }

/-- Claim C8, counterexample: this accept_answer transition arms the timer
(newDuration = 30) and broadcasts two events; answer_accepted carries
exp = now + 30 = 35, but score_changed carries exp = 0 even though the
transition advanced the timer - refuting the claim that EVERY event of a
timer-advancing transition carries now + duration. -/
theorem C8_counterexample_score_changed_exp_zero :
    (handleClientEvent parseOk 5 c8State
        { type := .AcceptAnswer, token := "L", data := none }).newDuration = 30 ∧
    (handleClientEvent parseOk 5 c8State
        { type := .AcceptAnswer, token := "L", data := none }).broadcasts =
      [{ type := .AnswerAcceptedServer, exp := 5 + 30, data := .noData },
       { type := .ScoreChangedServer, exp := 0, data := .scoreChangedData 2 0 }] ∧
    (0 : Int) ≠ 5 + 30 := by
  decide

/-- Claim C8 as amended: every broadcast of an event-handler or tick
transition carries either Exp = 0 or Exp = now + newDuration of that
transition (single wall-clock reading, so the 1 s skew collapses); the
non-timer-advancing events join and disconnect always leave newDuration = 0
and broadcast only Exp = 0 events.  What the original claim adds - that a
timer-advancing transition NEVER emits an Exp = 0 event - is refuted by the
counterexample: score_changed after accept_answer and final_server in the
decline_answer Final arm carry Exp = 0. -/
theorem C8_amended_exp_discipline (parse : String → Except String Token)
    (now : Int) (g : GameState) (e : ClientEvent) :
    (∀ b ∈ (handleClientEvent parse now g e).broadcasts,
        b.exp = 0 ∨ b.exp = now + (handleClientEvent parse now g e).newDuration) ∧
    (∀ b ∈ (handleTick now g).broadcasts,
        b.exp = 0 ∨ b.exp = now + (handleTick now g).newDuration) ∧
    ((e.type = .Join ∨ e.type = .Disconnect) →
        (handleClientEvent parse now g e).newDuration = 0 ∧
        ∀ b ∈ (handleClientEvent parse now g e).broadcasts, b.exp = 0) :=
  ⟨ExpOk_handleClientEvent parse now g e, ExpOk_handleTick now g,
   joinDisconnect_no_rearm parse now g e⟩

/-- Witness for the amended C8: at the concrete accept transition the first
broadcast satisfies the disjunction, and a join event leaves the timer
alone. -/
theorem C8_amended_witness :
    ((35 : Int) = 0 ∨ (35 : Int) = 5 +
      (handleClientEvent parseOk 5 c8State
          { type := .AcceptAnswer, token := "L", data := none }).newDuration) ∧
    (handleClientEvent parseOk 5 c8State
        { type := .Join, token := "A", data := none }).newDuration = 0 :=
  ⟨(C8_amended_exp_discipline parseOk 5 c8State
      { type := .AcceptAnswer, token := "L", data := none }).1
      { type := .AnswerAcceptedServer, exp := 35, data := .noData } (by decide),
   ((C8_amended_exp_discipline parseOk 5 c8State
      { type := .Join, token := "A", data := none }).2.2 (Or.inl rfl)).1⟩

/-- Claim C9: start_game from a mapped Leader with a valid, unexpired token.
With an empty players roster it only sends the in-band message
"cannot start game: no players" to the sender and leaves every piece of
state untouched; with at least one player it sets the step to Grettings,
arms a 10 s timer and broadcasts greetings_server with the pack name,
author and date and exp = now + 10. -/
theorem C9_start_game (parse : String → Except String Token) (now : Int)
    (g : GameState) (e : ClientEvent) (t : Token)
    (hp : parse e.token = .ok t) (hexp : ¬ t.expiresAt < now)
    (hty : e.type = .StartGame)
    (hrole : lookupKey g.clients e.token = some .Leader) :
    (g.players = [] →
      handleClientEvent parse now g e =
        { noChange g with sends := [(e.token, "cannot start game: no players")] }) ∧
    (g.players ≠ [] →
      handleClientEvent parse now g e =
        { state := { g with currentStep := .Grettings },
          broadcasts := [{ type := .GreetingsServer, exp := now + 10,
                           data := .greetings g.name g.author g.date }],
          sends := [], unregisters := [], closed := false,
          ctl := .continueLoop, newDuration := 10, panicked := none }) := by
  unfold handleClientEvent
  rw [hp]
  dsimp only
  rw [if_neg hexp, hty]
  dsimp only [roleByEvent]
  rw [hrole]
  dsimp only [List.isEmpty, List.contains, List.elem]
  unfold dispatchEvent
  rw [hty]
  dsimp only
  unfold startGameCase
  constructor
  · intro hP
    rw [hP, hrole]
    rfl
  · intro hP
    have hlen : (g.players.length == 0) = false := by
      simpa [List.length_eq_zero] using hP
    rw [hlen]
    rfl

/-- A room with a Leader and no players. -/
def c9EmptyState : GameState := { baseState with clients := [("L", .Leader)] }

/-- A room with a Leader and one joined player. -/
def c9TwoState : GameState :=
  { baseState with clients := [("L", .Leader), ("A", .User)], players := [("A", 0)] }

/-- Witness for C9 at a concrete empty room and a concrete one-player room. -/
theorem C9_witness :
    (handleClientEvent parseOk 0 c9EmptyState
        { type := .StartGame, token := "L", data := none } =
      { noChange c9EmptyState with
          sends := [("L", "cannot start game: no players")] }) ∧
    (handleClientEvent parseOk 0 c9TwoState
        { type := .StartGame, token := "L", data := none } =
      { state := { c9TwoState with currentStep := .Grettings },
        broadcasts := [{ type := .GreetingsServer, exp := 0 + 10,
                         data := .greetings c9TwoState.name c9TwoState.author
                                   c9TwoState.date }],
        sends := [], unregisters := [], closed := false,
        ctl := .continueLoop, newDuration := 10, panicked := none }) :=
  ⟨(C9_start_game parseOk 0 c9EmptyState
      { type := .StartGame, token := "L", data := none }
      { id := 0, login := "L", expiresAt := 1000000 }
      rfl (by decide) rfl (by decide)).1 rfl,
   (C9_start_game parseOk 0 c9TwoState
      { type := .StartGame, token := "L", data := none }
      { id := 0, login := "L", expiresAt := 1000000 }
      rfl (by decide) rfl (by decide)).2 (by decide)⟩

/-- Claim C10: give_answer is listed for role User in roleByEvent, yet the
event switch has no case for it, so a give_answer from a mapped User with a
valid, unexpired token passes the role check and then falls through the
switch: the whole result is exactly noChange - state, roster, scores,
timer arming and broadcast list all untouched. -/
theorem C10_give_answer_is_noop (parse : String → Except String Token) (now : Int)
    (g : GameState) (e : ClientEvent) (t : Token)
    (hp : parse e.token = .ok t) (hexp : ¬ t.expiresAt < now)
    (hty : e.type = .GiveAnswer)
    (hrole : lookupKey g.clients e.token = some .User) :
    handleClientEvent parse now g e = noChange g ∧
    roleByEvent .GiveAnswer = [.User] := by
  constructor
  · unfold handleClientEvent
    rw [hp]
    dsimp only
    rw [if_neg hexp, hty]
    dsimp only [roleByEvent]
    rw [hrole]
    dsimp only [List.isEmpty, List.contains, List.elem]
    unfold dispatchEvent
    rw [hty]
    rfl
  · rfl

/-- Witness for C10 at the concrete one-client room. -/
theorem C10_witness :
    handleClientEvent parseOk 0 c1State
        { type := .GiveAnswer, token := "A", data := none } = noChange c1State :=
  (C10_give_answer_is_noop parseOk 0 c1State
      { type := .GiveAnswer, token := "A", data := none }
      { id := 0, login := "A", expiresAt := 1000000 }
      rfl (by decide) rfl (by decide)).1

end MyGame
